import Mathlib

/-!
Shallow embedding of `src/vercel-koa2/index.js`, an Express application that
converts uploaded PDF files to Word documents.

External libraries (`pdf-parse`, `docx`/`Packer`, `fs`) are modelled as
oracles: each fallible call is an `Except String` value supplied in a
`ConvertEnv`, with `Except.error e` meaning the call threw with message `e`.
The filesystem is modelled by lists of staged paths and of written
output files; the module-level `conversionHistory` array is a list field.
-/

/-- Bytes of a Node `Buffer`. -/
abbrev Buffer := List Nat

/-- JavaScript `String.prototype.replace` with a plain (nonempty) string
pattern replaces only the first occurrence; this is the char-list core. -/
def listReplaceFirst (pat rep : List Char) : List Char → List Char
  | [] => []
  | c :: cs =>
    if pat.isPrefixOf (c :: cs) then rep ++ (c :: cs).drop pat.length
    else c :: listReplaceFirst pat rep cs

/-- JavaScript `s.replace(pat, rep)` for a nonempty string pattern. -/
def jsReplace (s pat rep : String) : String :=
  ⟨listReplaceFirst pat.data rep.data s.data⟩

/-- The multer `filename` callback (index.js lines 31-34):
`file.fieldname + '-' + Date.now() + '-' + Math.round(Math.random()*1E9) + '.pdf'`. -/
def multerFilename (fieldname : String) (now rand : Nat) : String :=
  fieldname ++ "-" ++ Nat.repr now ++ "-" ++ Nat.repr rand ++ ".pdf"

/-- The multer `fileFilter` (index.js lines 39-45): accept exactly
`application/pdf`, otherwise fail with the Chinese message "只支持PDF文件". -/
def fileFilter (mimetype : String) : Except String Bool :=
  if mimetype = "application/pdf" then Except.ok true
  else Except.error "只支持PDF文件"

/-- The multer size limit (index.js line 47): 10 * 1024 * 1024 bytes. -/
def fileSizeLimit : Nat := 10 * 1024 * 1024

/-- `req.file` as populated by multer. -/
structure UploadedFile where
  path : String
  filename : String
  originalname : String
deriving DecidableEq, Repr

/-- One entry of `conversionHistory`; `Option` fields model JSON keys that
are present only on one of the two construction sites. -/
structure HistoryItem where
  id : String
  originalName : String
  status : String
  fileName : Option String := none
  downloadUrl : Option String := none
  error : Option String := none
  createdAt : Nat
deriving DecidableEq, Repr

/-- The JSON object bodies sent by the app; absent keys are `none`. -/
structure JsonBody where
  success : Option Bool := none
  message : Option String := none
  error : Option String := none
  downloadUrl : Option String := none
  fileName : Option String := none
deriving DecidableEq, Repr

structure Response where
  status : Nat
  body : JsonBody
deriving DecidableEq, Repr

/-- Server state: staged paths in `uploads/`, written files in `downloads/`
(name and content), and the module-level `conversionHistory` array. -/
structure ServerState where
  uploads : List String
  downloads : List (String × Buffer)
  conversionHistory : List HistoryItem
deriving DecidableEq, Repr

/-- State at process start: `let conversionHistory = []`, empty directories. -/
def initialState : ServerState := ⟨[], [], []⟩

/-- Oracle for one request: the two numbers drawn in the multer filename
callback, the outcome of each external call in program order, and the values
of `Date.now()` at the success-record site (line 106) and at the
failure-record site (line 133). -/
structure ConvertEnv where
  stageTime : Nat
  rand : Nat
  readResult : Except String Buffer
  parseResult : Except String String
  packResult : Except String Buffer
  writeResult : Except String Unit
  unlinkResult : Except String Unit
  successTime : Nat
  failTime : Nat
deriving Repr

/-- The `completed` history item literal (index.js lines 105-112). -/
def completedItem (originalname wordFileName : String) (now : Nat) : HistoryItem :=
  { id := Nat.repr now
    originalName := originalname
    fileName := some wordFileName
    status := "completed"
    downloadUrl := some ("/downloads/" ++ wordFileName)
    error := none
    createdAt := now }

/-- The `failed` history item literal (index.js lines 132-138); its
`originalName` is the JavaScript expression
`req.file?.originalname || 'unknown'` (so an empty string is also falsy). -/
def failedItem (file : Option UploadedFile) (msg : String) (now : Nat) : HistoryItem :=
  { id := Nat.repr now
    originalName :=
      match file with
      | some f => if f.originalname = "" then "unknown" else f.originalname
      | none => "unknown"
    fileName := none
    status := "failed"
    downloadUrl := none
    error := some msg
    createdAt := now }

/-- The `try` block of the `/api/convert` handler (index.js lines 67-126)
for a present `req.file`: read, parse, build, pack, write, record, unlink.
An `Except.error (e, s)` is an exception with message `e` thrown when the
accumulated state was `s` (effects before the throw persist). -/
def tryConvert (file : UploadedFile) (env : ConvertEnv) (s : ServerState) :
    Except (String × ServerState) (Response × ServerState) :=
  match env.readResult with
  | Except.error e => Except.error (e, s)
  | Except.ok _pdfBuffer =>
    match env.parseResult with
    | Except.error e => Except.error (e, s)
    | Except.ok _text =>
      match env.packResult with
      | Except.error e => Except.error (e, s)
      | Except.ok buffer =>
        let fileName := jsReplace file.filename ".pdf" ""
        let wordFileName := fileName ++ ".docx"
        match env.writeResult with
        | Except.error e => Except.error (e, s)
        | Except.ok _ =>
          let s1 : ServerState :=
            { s with downloads := (wordFileName, buffer) :: s.downloads }
          let item := completedItem file.originalname wordFileName env.successTime
          let s2 : ServerState :=
            { s1 with conversionHistory := item :: s1.conversionHistory }
          match env.unlinkResult with
          | Except.error e => Except.error (e, s2)
          | Except.ok _ =>
            let s3 : ServerState := { s2 with uploads := s2.uploads.erase file.path }
            Except.ok
              (⟨200,
                { success := some true
                  message := some "转换成功"
                  downloadUrl := some ("/downloads/" ++ wordFileName)
                  fileName := some wordFileName }⟩, s3)

structure Request where
  file : Option UploadedFile
deriving Repr

/-- The whole `/api/convert` handler (index.js lines 61-148): the missing
file check, the try block, and the catch block that appends a `failed`
record and answers 500. -/
def convertHandler (req : Request) (env : ConvertEnv) (s : ServerState) :
    Response × ServerState :=
  match req.file with
  | none => (⟨400, { error := some "没有上传文件" }⟩, s)
  | some file =>
    match tryConvert file env s with
    | Except.ok r => r
    | Except.error (e, s1) =>
      (⟨500,
        { success := some false
          error := some "转换失败"
          message := some e }⟩,
       { s1 with
          conversionHistory :=
            failedItem req.file e env.failTime :: s1.conversionHistory })

/-- The error-handling middleware (index.js lines 173-179): any error passed
to `next` becomes `500 {error: '服务器内部错误', message: error.message}`. -/
def errorMiddleware (msg : String) : Response :=
  ⟨500, { error := some "服务器内部错误", message := some msg }⟩

/-- A file part of the incoming multipart request, before multer runs. -/
structure IncomingFile where
  mimetype : String
  originalname : String
  sizeBytes : Nat
deriving DecidableEq, Repr

/-- `POST /api/convert` end to end: multer (`fileFilter`, size limit,
disk staging under a generated name) and then the route handler; a multer
rejection skips the handler and lands in the error middleware. -/
def convertEndpoint (incoming : Option IncomingFile) (env : ConvertEnv)
    (s : ServerState) : Response × ServerState :=
  match incoming with
  | none => convertHandler ⟨none⟩ env s
  | some inc =>
    match fileFilter inc.mimetype with
    | Except.error e => (errorMiddleware e, s)
    | Except.ok _ =>
      if inc.sizeBytes > fileSizeLimit then
        (errorMiddleware "File too large", s)
      else
        let stagedName := multerFilename "pdf" env.stageTime env.rand
        let stagedPath := "uploads/" ++ stagedName
        let s1 : ServerState := { s with uploads := stagedPath :: s.uploads }
        convertHandler ⟨some ⟨stagedPath, stagedName, inc.originalname⟩⟩ env s1

/-- `GET /api/history` (index.js lines 151-153):
`conversionHistory.slice(0, 20)`, returned next to the unchanged state. -/
def historyHandler (s : ServerState) : List HistoryItem × ServerState :=
  (s.conversionHistory.take 20, s)

/-- Run a sequence of `/api/convert` requests. -/
def processRequests (reqs : List (Option IncomingFile × ConvertEnv))
    (s : ServerState) : ServerState :=
  reqs.foldl (fun st p => (convertEndpoint p.1 p.2 st).2) s

/-- All five external calls of one conversion succeed. -/
def allOk (env : ConvertEnv) : Bool :=
  env.readResult.isOk && env.parseResult.isOk && env.packResult.isOk &&
    env.writeResult.isOk && env.unlinkResult.isOk

/-- The output file name the handler derives for a staged upload of this
request: the staged name with the first `.pdf` occurrence removed, plus
`.docx` (index.js lines 68 and 99). -/
def docxName (env : ConvertEnv) : String :=
  jsReplace (multerFilename "pdf" env.stageTime env.rand) ".pdf" "" ++ ".docx"

/-- Numeric value of a decimal digit character. -/
def decDigitVal (c : Char) : Nat := c.toNat - 48

/-- The base of a staged file name: the staged name minus its `.pdf` suffix. -/
def stagedBase (env : ConvertEnv) : String :=
  "pdf" ++ "-" ++ Nat.repr env.stageTime ++ "-" ++ Nat.repr env.rand

/-- Well-formedness of one history record: status is `completed` or
`failed`; `fileName` and `downloadUrl` are present iff completed; `error`
is present iff failed. -/
def wfItem (it : HistoryItem) : Prop :=
  (it.status = "completed" ∨ it.status = "failed") ∧
  ((it.fileName.isSome = true ∧ it.downloadUrl.isSome = true) ↔
    it.status = "completed") ∧
  (it.error.isSome = true ↔ it.status = "failed")

/-- A concrete environment in which every external call succeeds. -/
def env17 : ConvertEnv :=
  ⟨17, 42, Except.ok [37], Except.ok "hello", Except.ok [80, 75],
    Except.ok (), Except.ok (), 99, 100⟩

/-- A concrete PDF upload. -/
def inc1 : IncomingFile := ⟨"application/pdf", "report.pdf", 3⟩

/-- A concrete staged file as seen by the route handler. -/
def file1 : UploadedFile := ⟨"uploads/pdf-1-2.pdf", "pdf-1-2.pdf", "report.pdf"⟩

/-- The empty starting state, under its short fixture name. -/
def s0 : ServerState := initialState

/-- A concrete environment whose document generation (`Packer.toBuffer`)
throws after a successful text extraction. -/
def envPackFails : ConvertEnv :=
  ⟨1, 2, Except.ok [37], Except.ok "some text", Except.error "pack boom",
    Except.ok (), Except.ok (), 99, 100⟩

/-- A concrete environment whose `fs.readFileSync` throws. -/
def envReadFails : ConvertEnv :=
  ⟨1, 2, Except.error "boom", Except.ok "t", Except.ok [80, 75],
    Except.ok (), Except.ok (), 99, 100⟩

/-- A concrete environment in which only `fs.unlinkSync` throws. -/
def envUnlinkFails : ConvertEnv :=
  ⟨1, 2, Except.ok [37], Except.ok "t", Except.ok [80, 75],
    Except.ok (), Except.error "EACCES", 99, 100⟩

/-- Two concrete environments whose record-creation clock reads 7 in both
requests (two conversions completing within the same millisecond). -/
def envT7a : ConvertEnv :=
  ⟨1, 2, Except.ok [37], Except.ok "t", Except.ok [80], Except.ok (),
    Except.ok (), 7, 7⟩

def envT7b : ConvertEnv :=
  ⟨3, 4, Except.ok [37], Except.ok "t", Except.ok [80], Except.ok (),
    Except.ok (), 7, 7⟩

/-- No character produced by `Nat.toDigitsCore` in base 10 is a dot. -/
lemma toDigitsCore_no_dot :
    ∀ (fuel n : Nat) (ds : List Char), (∀ c ∈ ds, c ≠ '.') →
      ∀ c ∈ Nat.toDigitsCore 10 fuel n ds, c ≠ '.' := by
  intro fuel
  induction fuel with
  | zero => intro n ds h; simpa [Nat.toDigitsCore] using h
  | succ f ih =>
    intro n ds h
    have hd : Nat.digitChar (n % 10) ≠ '.' := by
      have h10 : n % 10 < 10 := Nat.mod_lt _ (by decide)
      exact (by decide : ∀ m, m < 10 → Nat.digitChar m ≠ '.') (n % 10) h10
    have hds : ∀ c ∈ Nat.digitChar (n % 10) :: ds, c ≠ '.' := by
      intro c hc
      rcases List.mem_cons.mp hc with h1 | h2
      · simpa [h1] using hd
      · exact h c h2
    simp only [Nat.toDigitsCore]
    split
    · exact hds
    · exact ih (n / 10) (Nat.digitChar (n % 10) :: ds) hds

/-- The decimal representation of a natural number contains no dot. -/
lemma repr_no_dot (n : Nat) : ∀ c ∈ (Nat.repr n).data, c ≠ '.' := by
  have hdata : (Nat.repr n).data = Nat.toDigitsCore 10 (n + 1) n [] := rfl
  rw [hdata]
  exact toDigitsCore_no_dot (n + 1) n [] (by simp)

/-- Folding the decimal evaluation over `Nat.toDigitsCore` recovers the
number in front of the remaining accumulator characters. -/
lemma foldl_toDigitsCore :
    ∀ (fuel n : Nat) (ds : List Char), n < fuel →
      (Nat.toDigitsCore 10 fuel n ds).foldl (fun a c => 10 * a + decDigitVal c) 0
        = ds.foldl (fun a c => 10 * a + decDigitVal c) n := by
  intro fuel
  induction fuel with
  | zero => intro n ds h; exact absurd h (Nat.not_lt_zero n)
  | succ f ih =>
    intro n ds h
    have hval : decDigitVal (Nat.digitChar (n % 10)) = n % 10 := by
      have h10 : n % 10 < 10 := Nat.mod_lt _ (by decide)
      exact (by decide : ∀ m, m < 10 → decDigitVal (Nat.digitChar m) = m) (n % 10) h10
    simp only [Nat.toDigitsCore]
    split
    · rename_i hdiv
      have hlt : n < 10 := (Nat.div_eq_zero_iff (by decide)).mp hdiv
      have hn : n % 10 = n := Nat.mod_eq_of_lt hlt
      rw [hn] at hval
      simp [List.foldl_cons, hn, hval]
    · rename_i hdiv
      have hpos : 0 < n := by
        rcases Nat.eq_zero_or_pos n with h0 | h0
        · exact absurd (by simp [h0]) hdiv
        · exact h0
      have hlt : n / 10 < f := by
        have h1 : n / 10 < n := Nat.div_lt_self hpos (by decide)
        omega
      rw [ih (n / 10) (Nat.digitChar (n % 10) :: ds) hlt]
      simp [List.foldl_cons, hval, Nat.div_add_mod]

/-- Decimal evaluation is a left inverse of `Nat.repr`. -/
lemma foldl_repr (n : Nat) :
    (Nat.repr n).data.foldl (fun a c => 10 * a + decDigitVal c) 0 = n := by
  have hdata : (Nat.repr n).data = Nat.toDigitsCore 10 (n + 1) n [] := rfl
  rw [hdata, foldl_toDigitsCore (n + 1) n [] (Nat.lt_succ_self n)]
  rfl

/-- `Nat.repr` is injective. -/
lemma nat_repr_injective {m n : Nat} (h : Nat.repr m = Nat.repr n) : m = n := by
  have hm := foldl_repr m
  have hn := foldl_repr n
  rw [h, hn] at hm
  exact hm.symm

/-- On a text with no dot followed by the literal suffix `.pdf`, replacing
the first `.pdf` occurrence removes exactly that suffix. -/
lemma listReplaceFirst_strip (rep : List Char) :
    ∀ l : List Char, '.' ∉ l →
      listReplaceFirst ".pdf".data rep (l ++ ".pdf".data) = l ++ rep := by
  intro l
  induction l with
  | nil =>
    intro _
    show listReplaceFirst ['.', 'p', 'd', 'f'] rep ['.', 'p', 'd', 'f'] = [] ++ rep
    simp [listReplaceFirst, List.isPrefixOf]
  | cons c cs ih =>
    intro h
    have hc : c ≠ '.' := fun he => h (he ▸ List.mem_cons_self c cs)
    have hpre : (".pdf".data.isPrefixOf (c :: (cs ++ ".pdf".data))) = false := by
      show (['.', 'p', 'd', 'f'].isPrefixOf (c :: (cs ++ ".pdf".data))) = false
      simp [List.isPrefixOf]
      intro heq
      exact absurd heq.symm hc
    show listReplaceFirst ".pdf".data rep (c :: (cs ++ ".pdf".data))
        = c :: (cs ++ rep)
    rw [listReplaceFirst, hpre]
    simp only [Bool.false_eq_true, if_false]
    rw [ih (fun hx => h (List.mem_cons_of_mem c hx))]

/-- Stripping the staged suffix: for a name `base ++ ".pdf"` whose base has
no dot, the handler's `replace('.pdf', '')` yields exactly `base`. -/
lemma jsReplace_strip (base : String) (hb : '.' ∉ base.data) :
    jsReplace (base ++ ".pdf") ".pdf" "" = base := by
  apply String.ext
  show listReplaceFirst ".pdf".data "".data (base ++ ".pdf").data = base.data
  rw [String.data_append]
  have h := listReplaceFirst_strip "".data base.data hb
  rw [h]
  simp

/-- A staged file name is its base followed by `.pdf`. -/
lemma multerFilename_eq (env : ConvertEnv) :
    multerFilename "pdf" env.stageTime env.rand = stagedBase env ++ ".pdf" := rfl

/-- The decimal representation of a natural number does not contain a dot. -/
lemma repr_dot_not_mem (n : Nat) : '.' ∉ (Nat.repr n).data :=
  fun h => repr_no_dot n '.' h rfl

/-- The staged base contains no dot. -/
lemma stagedBase_no_dot (env : ConvertEnv) : '.' ∉ (stagedBase env).data := by
  intro hc
  simp only [stagedBase, String.data_append, List.mem_append] at hc
  rcases hc with ((((h1 | h1) | h1) | h1) | h1)
  · exact absurd h1 (by decide)
  · exact absurd h1 (by decide)
  · exact repr_dot_not_mem env.stageTime h1
  · exact absurd h1 (by decide)
  · exact repr_dot_not_mem env.rand h1

/-- The handler-derived output name is the staged base plus `.docx`. -/
lemma docxName_eq (env : ConvertEnv) : docxName env = stagedBase env ++ ".docx" := by
  rw [docxName, multerFilename_eq, jsReplace_strip (stagedBase env) (stagedBase_no_dot env)]

/-- Full effect of a successful `/api/convert` request: 200 response with
the derived names, output prepended to `downloads`, a `completed` record
prepended to the history, and the staged file gone again. -/
lemma convertEndpoint_success (inc : IncomingFile) (env : ConvertEnv)
    (s : ServerState) (rb bf : Buffer) (tx : String)
    (hm : inc.mimetype = "application/pdf") (hs : inc.sizeBytes ≤ fileSizeLimit)
    (hr : env.readResult = Except.ok rb) (hp : env.parseResult = Except.ok tx)
    (hk : env.packResult = Except.ok bf) (hw : env.writeResult = Except.ok ())
    (hu : env.unlinkResult = Except.ok ()) :
    convertEndpoint (some inc) env s =
      (⟨200,
        { success := some true
          message := some "转换成功"
          downloadUrl := some ("/downloads/" ++ docxName env)
          fileName := some (docxName env) }⟩,
       { uploads := s.uploads
         downloads := (docxName env, bf) :: s.downloads
         conversionHistory :=
           completedItem inc.originalname (docxName env) env.successTime
             :: s.conversionHistory }) := by
  have hsz : ¬ inc.sizeBytes > fileSizeLimit := Nat.not_lt.mpr hs
  simp [convertEndpoint, convertHandler, tryConvert, fileFilter, hm, hsz,
    hr, hp, hk, hw, hu, docxName, List.erase_cons_head]

/-- C1: for every upload of field `pdf` that is staged, parsed and generated
successfully, `POST /api/convert` responds 200 with `success:true`, a
message, `fileName` equal to the staged file's name with its `.pdf` suffix
stripped and `.docx` appended, `downloadUrl` equal to
`/downloads/<fileName>`, and the generated document is written to the
output area under that `fileName`. -/
theorem C1_success_response (inc : IncomingFile) (env : ConvertEnv)
    (s : ServerState) (rb bf : Buffer) (tx : String)
    (hm : inc.mimetype = "application/pdf") (hs : inc.sizeBytes ≤ fileSizeLimit)
    (hr : env.readResult = Except.ok rb) (hp : env.parseResult = Except.ok tx)
    (hk : env.packResult = Except.ok bf) (hw : env.writeResult = Except.ok ())
    (hu : env.unlinkResult = Except.ok ()) :
    multerFilename "pdf" env.stageTime env.rand = stagedBase env ++ ".pdf" ∧
    (convertEndpoint (some inc) env s).1.status = 200 ∧
    (convertEndpoint (some inc) env s).1.body.success = some true ∧
    (convertEndpoint (some inc) env s).1.body.message = some "转换成功" ∧
    (convertEndpoint (some inc) env s).1.body.fileName
      = some (stagedBase env ++ ".docx") ∧
    (convertEndpoint (some inc) env s).1.body.downloadUrl
      = some ("/downloads/" ++ (stagedBase env ++ ".docx")) ∧
    (stagedBase env ++ ".docx", bf) ∈ (convertEndpoint (some inc) env s).2.downloads := by
  have h := convertEndpoint_success inc env s rb bf tx hm hs hr hp hk hw hu
  rw [h]
  refine ⟨multerFilename_eq env, rfl, rfl, rfl, ?_, ?_, ?_⟩
  · simp [docxName_eq]
  · simp [docxName_eq]
  · simp [docxName_eq]

/-- Witness for C1 at a concrete request. -/
theorem C1_success_response_witness :
    (multerFilename "pdf" 17 42 = stagedBase env17 ++ ".pdf" ∧
     (convertEndpoint (some inc1) env17 s0).1.status = 200 ∧
     (convertEndpoint (some inc1) env17 s0).1.body.success = some true ∧
     (convertEndpoint (some inc1) env17 s0).1.body.message = some "转换成功" ∧
     (convertEndpoint (some inc1) env17 s0).1.body.fileName
       = some (stagedBase env17 ++ ".docx") ∧
     (convertEndpoint (some inc1) env17 s0).1.body.downloadUrl
       = some ("/downloads/" ++ (stagedBase env17 ++ ".docx")) ∧
     (stagedBase env17 ++ ".docx", [80, 75]) ∈ (convertEndpoint (some inc1) env17 s0).2.downloads) :=
  C1_success_response inc1 env17 s0 [37] [80, 75] "hello" rfl (by decide)
    rfl rfl rfl rfl rfl

/-- C2 counterexample: a conversion whose text extraction succeeded but
whose document generation threw leaves the staged file in place — it is
not "deleted unconditionally once text extraction succeeds". -/
theorem C2_counterexample :
    envPackFails.parseResult = Except.ok "some text" ∧
    (convertHandler ⟨some file1⟩ envPackFails
        { uploads := ["uploads/pdf-1-2.pdf"], downloads := [],
          conversionHistory := [] }).2.uploads = ["uploads/pdf-1-2.pdf"] ∧
    (convertHandler ⟨some file1⟩ envPackFails
        { uploads := ["uploads/pdf-1-2.pdf"], downloads := [],
          conversionHistory := [] }).1.status = 500 := by
  refine ⟨rfl, by decide, by decide⟩

/-- C2 amended: the staged input is deleted exactly when the whole chain —
read, extraction, generation, write and the deletion call itself —
succeeds; if any later step fails, the staged file remains in the staging
area untouched. -/
theorem C2_staged_file_cleanup (f : UploadedFile) (env : ConvertEnv)
    (s : ServerState) :
    (convertHandler ⟨some f⟩ env s).2.uploads
      = if allOk env then s.uploads.erase f.path else s.uploads := by
  rcases env with ⟨st, rd, rr, pr, pk, wr, ul, sT, fT⟩
  cases rr <;> cases pr <;> cases pk <;> cases wr <;> cases ul <;>
    simp [convertHandler, tryConvert, allOk, Except.isOk, Except.toBool]

/-- C3 counterexample: a `text/plain` upload is answered with status 500
(the multer rejection lands in the generic error middleware), not with a
400-class validation status. -/
theorem C3_counterexample :
    (convertEndpoint (some ⟨"text/plain", "a.txt", 3⟩) env17 s0).1.status = 500 ∧
    ¬ (400 ≤ (convertEndpoint (some ⟨"text/plain", "a.txt", 3⟩) env17 s0).1.status ∧
        (convertEndpoint (some ⟨"text/plain", "a.txt", 3⟩) env17 s0).1.status < 500) := by
  refine ⟨by decide, by decide⟩

/-- C3 amended: for every upload whose MIME type is not `application/pdf`,
the convert endpoint answers 500 through the error-handling middleware with
the fileFilter message, and the state is unchanged — nothing is staged, no
output file is written, no history record is added. -/
theorem C3_nonpdf_rejected (inc : IncomingFile) (env : ConvertEnv)
    (s : ServerState) (hm : inc.mimetype ≠ "application/pdf") :
    convertEndpoint (some inc) env s = (errorMiddleware "只支持PDF文件", s) ∧
    (errorMiddleware "只支持PDF文件").status = 500 := by
  refine ⟨?_, rfl⟩
  simp [convertEndpoint, fileFilter, hm]

/-- Witness for C3 amended at a concrete upload. -/
theorem C3_nonpdf_rejected_witness :
    (convertEndpoint (some ⟨"image/png", "a.png", 3⟩) env17 s0
        = (errorMiddleware "只支持PDF文件", s0) ∧
     (errorMiddleware "只支持PDF文件").status = 500) :=
  C3_nonpdf_rejected ⟨"image/png", "a.png", 3⟩ env17 s0 (by decide)

/-- C8: a `POST /api/convert` request without a file field is answered 400
with an error body, and the state — history and output area included — is
unchanged. -/
theorem C8_no_file_uploaded (env : ConvertEnv) (s : ServerState) :
    convertEndpoint none env s
      = (⟨400, { error := some "没有上传文件" }⟩, s) := rfl

/-- C4: whenever a step after staging throws, the handler catches it,
prepends a `failed` record carrying the client-supplied original name
(sentinel "unknown" when absent or empty) and the underlying message, and
answers 500 with `success:false` and that message; the handler is a total
function, so the process does not crash. -/
theorem C4_failure_caught (f : UploadedFile) (env : ConvertEnv)
    (s s1 : ServerState) (e : String)
    (h : tryConvert f env s = Except.error (e, s1)) :
    convertHandler ⟨some f⟩ env s =
      (⟨500,
        { success := some false
          error := some "转换失败"
          message := some e }⟩,
       { s1 with
          conversionHistory :=
            failedItem (some f) e env.failTime :: s1.conversionHistory }) ∧
    (failedItem (some f) e env.failTime).status = "failed" ∧
    (failedItem (some f) e env.failTime).error = some e ∧
    (failedItem (some f) e env.failTime).originalName
      = (if f.originalname = "" then "unknown" else f.originalname) := by
  refine ⟨?_, rfl, rfl, rfl⟩
  simp [convertHandler, h]

/-- Witness for C4 at a concrete file whose read step throws. -/
theorem C4_failure_caught_witness :
    (convertHandler ⟨some file1⟩ envReadFails s0 =
      (⟨500,
        { success := some false
          error := some "转换失败"
          message := some "boom" }⟩,
       { s0 with
          conversionHistory :=
            failedItem (some file1) "boom" envReadFails.failTime
              :: s0.conversionHistory }) ∧
     (failedItem (some file1) "boom" envReadFails.failTime).status = "failed" ∧
     (failedItem (some file1) "boom" envReadFails.failTime).error = some "boom" ∧
     (failedItem (some file1) "boom" envReadFails.failTime).originalName
       = (if file1.originalname = "" then "unknown" else file1.originalname)) :=
  C4_failure_caught file1 envReadFails s0 s0 "boom" rfl

/-- C10: on the success path the `completed` record is prepended before the
staged file is deleted, so when only the final `unlinkSync` throws, the
history receives both a `completed` and a `failed` record for the single
attempt, the client is answered 500 with `success:false`, and the generated
output file nevertheless exists in the output area. -/
theorem C10_unlink_failure_double_record (f : UploadedFile) (env : ConvertEnv)
    (s : ServerState) (rb bf : Buffer) (tx e : String)
    (hr : env.readResult = Except.ok rb) (hp : env.parseResult = Except.ok tx)
    (hk : env.packResult = Except.ok bf) (hw : env.writeResult = Except.ok ())
    (hu : env.unlinkResult = Except.error e) :
    (convertHandler ⟨some f⟩ env s).1.status = 500 ∧
    (convertHandler ⟨some f⟩ env s).1.body.success = some false ∧
    (convertHandler ⟨some f⟩ env s).1.body.message = some e ∧
    (convertHandler ⟨some f⟩ env s).2.conversionHistory
      = failedItem (some f) e env.failTime
          :: completedItem f.originalname
              (jsReplace f.filename ".pdf" "" ++ ".docx") env.successTime
          :: s.conversionHistory ∧
    (jsReplace f.filename ".pdf" "" ++ ".docx", bf)
      ∈ (convertHandler ⟨some f⟩ env s).2.downloads := by
  simp [convertHandler, tryConvert, hr, hp, hk, hw, hu]

/-- Witness for C10 at a concrete conversion whose deletion step throws. -/
theorem C10_unlink_failure_double_record_witness :
    ((convertHandler ⟨some file1⟩ envUnlinkFails s0).1.status = 500 ∧
     (convertHandler ⟨some file1⟩ envUnlinkFails s0).1.body.success = some false ∧
     (convertHandler ⟨some file1⟩ envUnlinkFails s0).1.body.message = some "EACCES" ∧
     (convertHandler ⟨some file1⟩ envUnlinkFails s0).2.conversionHistory
       = failedItem (some file1) "EACCES" envUnlinkFails.failTime
           :: completedItem file1.originalname
               (jsReplace file1.filename ".pdf" "" ++ ".docx")
               envUnlinkFails.successTime
           :: s0.conversionHistory ∧
     (jsReplace file1.filename ".pdf" "" ++ ".docx", [80, 75])
       ∈ (convertHandler ⟨some file1⟩ envUnlinkFails s0).2.downloads) :=
  C10_unlink_failure_double_record file1 envUnlinkFails s0 [37] [80, 75]
    "t" "EACCES" rfl rfl rfl rfl rfl

/-- `allOk` yields the five successful call results. -/
lemma allOk_elim (env : ConvertEnv) (h : allOk env = true) :
    ∃ rb tx bf, env.readResult = Except.ok rb ∧ env.parseResult = Except.ok tx ∧
      env.packResult = Except.ok bf ∧ env.writeResult = Except.ok () ∧
      env.unlinkResult = Except.ok () := by
  rcases env with ⟨st, rd, rr, pr, pk, wr, ul, sT, fT⟩
  cases rr <;> cases pr <;> cases pk <;> cases wr <;> cases ul <;>
    simp_all [allOk, Except.isOk, Except.toBool]

/-- A successful request prepends exactly its `completed` record. -/
lemma convertEndpoint_success_history (inc : IncomingFile) (env : ConvertEnv)
    (s : ServerState) (hm : inc.mimetype = "application/pdf")
    (hs : inc.sizeBytes ≤ fileSizeLimit) (hok : allOk env = true) :
    (convertEndpoint (some inc) env s).2.conversionHistory
      = completedItem inc.originalname (docxName env) env.successTime
          :: s.conversionHistory ∧
    (convertEndpoint (some inc) env s).1.status = 200 := by
  obtain ⟨rb, tx, bf, hr, hp, hk, hw, hu⟩ := allOk_elim env hok
  rw [convertEndpoint_success inc env s rb bf tx hm hs hr hp hk hw hu]
  exact ⟨rfl, rfl⟩

/-- C5: records are prepended, so after three sequential successful
conversions A, B, C the history endpoint lists them C, B, A — most recent
first. -/
theorem C5_history_most_recent_first
    (iA iB iC : IncomingFile) (eA eB eC : ConvertEnv)
    (hmA : iA.mimetype = "application/pdf") (hsA : iA.sizeBytes ≤ fileSizeLimit)
    (hoA : allOk eA = true)
    (hmB : iB.mimetype = "application/pdf") (hsB : iB.sizeBytes ≤ fileSizeLimit)
    (hoB : allOk eB = true)
    (hmC : iC.mimetype = "application/pdf") (hsC : iC.sizeBytes ≤ fileSizeLimit)
    (hoC : allOk eC = true) :
    (historyHandler (convertEndpoint (some iC) eC
        (convertEndpoint (some iB) eB
          (convertEndpoint (some iA) eA initialState).2).2).2).1
      = [completedItem iC.originalname (docxName eC) eC.successTime,
         completedItem iB.originalname (docxName eB) eB.successTime,
         completedItem iA.originalname (docxName eA) eA.successTime] := by
  have hA := (convertEndpoint_success_history iA eA initialState hmA hsA hoA).1
  have hB := (convertEndpoint_success_history iB eB
    (convertEndpoint (some iA) eA initialState).2 hmB hsB hoB).1
  have hC := (convertEndpoint_success_history iC eC
    (convertEndpoint (some iB) eB
      (convertEndpoint (some iA) eA initialState).2).2 hmC hsC hoC).1
  show (convertEndpoint (some iC) eC _).2.conversionHistory.take 20 = _
  rw [hC, hB, hA]
  rfl

/-- Witness for C5 with three concrete successful conversions. -/
theorem C5_history_most_recent_first_witness :
    (historyHandler (convertEndpoint (some ⟨"application/pdf", "c.pdf", 3⟩) env17
        (convertEndpoint (some ⟨"application/pdf", "b.pdf", 2⟩) env17
          (convertEndpoint (some ⟨"application/pdf", "a.pdf", 1⟩) env17
            initialState).2).2).2).1
      = [completedItem "c.pdf" (docxName env17) env17.successTime,
         completedItem "b.pdf" (docxName env17) env17.successTime,
         completedItem "a.pdf" (docxName env17) env17.successTime] :=
  C5_history_most_recent_first
    ⟨"application/pdf", "a.pdf", 1⟩ ⟨"application/pdf", "b.pdf", 2⟩
    ⟨"application/pdf", "c.pdf", 3⟩ env17 env17 env17
    rfl (by decide) rfl rfl (by decide) rfl rfl (by decide) rfl

/-- Running a batch of successful conversions appends their records in
reverse completion order in front of the starting history. -/
lemma processRequests_success_history
    (reqs : List (IncomingFile × ConvertEnv)) :
    ∀ s : ServerState,
      (∀ p ∈ reqs, p.1.mimetype = "application/pdf" ∧
        p.1.sizeBytes ≤ fileSizeLimit ∧ allOk p.2 = true) →
      (processRequests (reqs.map (fun p => (some p.1, p.2))) s).conversionHistory
        = (reqs.map (fun p =>
            completedItem p.1.originalname (docxName p.2) p.2.successTime)).reverse
            ++ s.conversionHistory := by
  induction reqs with
  | nil => intro s _; simp [processRequests]
  | cons p ps ih =>
    intro s h
    have hp := h p (List.mem_cons_self p ps)
    have hstep := (convertEndpoint_success_history p.1 p.2 s hp.1 hp.2.1 hp.2.2).1
    have hrest := ih ((convertEndpoint (some p.1) p.2 s).2)
      (fun q hq => h q (List.mem_cons_of_mem p hq))
    show (processRequests ((some p.1, p.2) :: ps.map (fun q => (some q.1, q.2))) s).conversionHistory = _
    rw [show processRequests ((some p.1, p.2) :: ps.map (fun q => (some q.1, q.2))) s
        = processRequests (ps.map (fun q => (some q.1, q.2)))
            ((convertEndpoint (some p.1) p.2 s).2) from rfl]
    rw [hrest, hstep]
    simp [List.append_assoc]

/-- C6: the history endpoint answers the first `min(20, length)` records
and leaves the state untouched; in particular after 25 recorded
conversions it answers exactly the 20 most recent records. -/
theorem C6_history_capped (reqs : List (IncomingFile × ConvertEnv))
    (h : ∀ p ∈ reqs, p.1.mimetype = "application/pdf" ∧
      p.1.sizeBytes ≤ fileSizeLimit ∧ allOk p.2 = true)
    (hlen : reqs.length = 25) :
    (∀ s : ServerState,
      (historyHandler s).1.length = min 20 s.conversionHistory.length ∧
      (historyHandler s).2 = s) ∧
    (historyHandler (processRequests (reqs.map (fun p => (some p.1, p.2)))
        initialState)).1
      = ((reqs.map (fun p =>
          completedItem p.1.originalname (docxName p.2) p.2.successTime)).reverse).take 20 ∧
    (historyHandler (processRequests (reqs.map (fun p => (some p.1, p.2)))
        initialState)).1.length = 20 := by
  have hh := processRequests_success_history reqs initialState h
  refine ⟨fun s => ⟨List.length_take 20 s.conversionHistory, rfl⟩, ?_, ?_⟩
  · show (processRequests _ _).conversionHistory.take 20 = _
    rw [hh]
    simp [initialState]
  · show ((processRequests _ _).conversionHistory.take 20).length = 20
    rw [hh]
    simp [initialState, List.length_take, hlen]

/-- Witness for C6 with 25 identical concrete successful conversions. -/
theorem C6_history_capped_witness :
    ((∀ s : ServerState,
      (historyHandler s).1.length = min 20 s.conversionHistory.length ∧
      (historyHandler s).2 = s) ∧
    (historyHandler (processRequests ((List.replicate 25 (inc1, env17)).map
        (fun p => (some p.1, p.2))) initialState)).1
      = (((List.replicate 25 (inc1, env17)).map (fun p =>
          completedItem p.1.originalname (docxName p.2) p.2.successTime)).reverse).take 20 ∧
    (historyHandler (processRequests ((List.replicate 25 (inc1, env17)).map
        (fun p => (some p.1, p.2))) initialState)).1.length = 20) :=
  C6_history_capped (List.replicate 25 (inc1, env17)) (by decide) (by decide)

lemma wf_completedItem (o w : String) (t : Nat) : wfItem (completedItem o w t) := by
  refine ⟨Or.inl rfl, ?_, ?_⟩ <;> simp [completedItem]

lemma wf_failedItem (f : Option UploadedFile) (e : String) (t : Nat) :
    wfItem (failedItem f e t) := by
  refine ⟨Or.inr rfl, ?_, ?_⟩ <;> simp [failedItem]

lemma wf_cons_failed {l : List HistoryItem} (f : Option UploadedFile)
    (e : String) (t : Nat) (h : ∀ it ∈ l, wfItem it) :
    ∀ it ∈ failedItem f e t :: l, wfItem it := by
  intro it hit
  rcases List.mem_cons.mp hit with rfl | hit
  · exact wf_failedItem f e t
  · exact h it hit

lemma wf_cons_completed {l : List HistoryItem} (o w : String) (t : Nat)
    (h : ∀ it ∈ l, wfItem it) :
    ∀ it ∈ completedItem o w t :: l, wfItem it := by
  intro it hit
  rcases List.mem_cons.mp hit with rfl | hit
  · exact wf_completedItem o w t
  · exact h it hit

/-- Whatever the route handler does, all records in the history stay
well-formed. -/
lemma wf_preserved_handler (req : Request) (env : ConvertEnv) (s : ServerState)
    (h : ∀ it ∈ s.conversionHistory, wfItem it) :
    ∀ it ∈ (convertHandler req env s).2.conversionHistory, wfItem it := by
  rcases req with ⟨file⟩
  cases file with
  | none => simpa [convertHandler] using h
  | some f =>
    rcases env with ⟨st, rd, rr, pr, pk, wr, ul, sT, fT⟩
    cases rr <;> cases pr <;> cases pk <;> cases wr <;> cases ul <;>
      simp only [convertHandler, tryConvert] <;>
      first
        | exact h
        | exact wf_cons_failed _ _ _ h
        | exact wf_cons_completed _ _ _ h
        | exact wf_cons_failed _ _ _ (wf_cons_completed _ _ _ h)

/-- Whatever one `/api/convert` request does, all records stay well-formed. -/
lemma wf_preserved (inc : Option IncomingFile) (env : ConvertEnv)
    (s : ServerState) (h : ∀ it ∈ s.conversionHistory, wfItem it) :
    ∀ it ∈ (convertEndpoint inc env s).2.conversionHistory, wfItem it := by
  cases inc with
  | none => exact wf_preserved_handler ⟨none⟩ env s h
  | some inc =>
    by_cases hm : inc.mimetype = "application/pdf"
    · by_cases hsz : inc.sizeBytes > fileSizeLimit
      · simpa [convertEndpoint, fileFilter, hm, hsz] using h
      · have hred : convertEndpoint (some inc) env s
            = convertHandler
                ⟨some ⟨"uploads/" ++ multerFilename "pdf" env.stageTime env.rand,
                  multerFilename "pdf" env.stageTime env.rand, inc.originalname⟩⟩
                env
                { s with uploads :=
                    ("uploads/" ++ multerFilename "pdf" env.stageTime env.rand)
                      :: s.uploads } := by
          simp [convertEndpoint, fileFilter, hm, hsz]
        rw [hred]
        exact wf_preserved_handler _ env _ h
    · simpa [convertEndpoint, fileFilter, hm] using h

/-- C7: every record ever appended to the history has status `completed`
or `failed`, carries `fileName` and `downloadUrl` exactly when completed,
and carries `error` exactly when failed — over any sequence of requests
from process start. -/
theorem C7_records_wellformed (reqs : List (Option IncomingFile × ConvertEnv)) :
    ∀ it ∈ (processRequests reqs initialState).conversionHistory, wfItem it := by
  have main : ∀ (rs : List (Option IncomingFile × ConvertEnv)) (s : ServerState),
      (∀ it ∈ s.conversionHistory, wfItem it) →
      ∀ it ∈ (processRequests rs s).conversionHistory, wfItem it := by
    intro rs
    induction rs with
    | nil => intro s h; simpa [processRequests] using h
    | cons p ps ih =>
      intro s h
      exact ih ((convertEndpoint p.1 p.2 s).2) (wf_preserved p.1 p.2 s h)
  exact main reqs initialState (by simp [initialState])

/-- Witness for C7: the record produced by one concrete successful
conversion is well-formed. -/
theorem C7_records_wellformed_witness :
    wfItem (completedItem "report.pdf" (docxName env17) env17.successTime) :=
  C7_records_wellformed [(some inc1, env17)]
    (completedItem "report.pdf" (docxName env17) env17.successTime)
    (by decide)

/-- C9 counterexample: two distinct records appended in the same
millisecond (`Date.now()` reading 7 for both) share the id "7" — the id is
not unique within the process lifetime. -/
theorem C9_counterexample :
    ((convertEndpoint (some ⟨"application/pdf", "b.pdf", 1⟩) envT7b
        (convertEndpoint (some ⟨"application/pdf", "a.pdf", 1⟩) envT7a
          initialState).2).2.conversionHistory.length = 2 ∧
     (convertEndpoint (some ⟨"application/pdf", "b.pdf", 1⟩) envT7b
        (convertEndpoint (some ⟨"application/pdf", "a.pdf", 1⟩) envT7a
          initialState).2).2.conversionHistory.Nodup ∧
     ∀ it ∈ (convertEndpoint (some ⟨"application/pdf", "b.pdf", 1⟩) envT7b
        (convertEndpoint (some ⟨"application/pdf", "a.pdf", 1⟩) envT7a
          initialState).2).2.conversionHistory, it.id = "7") := by
  decide

/-- C9 amended: a record's id is the decimal string of the `Date.now()`
value at its creation, so two records are guaranteed distinct ids exactly
when their creation clock readings differ; records created in the same
millisecond share an id. -/
theorem C9_ids_distinct_for_distinct_times (o1 w1 o2 w2 : String)
    (f1 f2 : Option UploadedFile) (e1 e2 : String) (t1 t2 : Nat)
    (h : t1 ≠ t2) :
    (completedItem o1 w1 t1).id ≠ (completedItem o2 w2 t2).id ∧
    (failedItem f1 e1 t1).id ≠ (failedItem f2 e2 t2).id ∧
    (completedItem o1 w1 t1).id ≠ (failedItem f2 e2 t2).id := by
    refine ⟨?_, ?_, ?_⟩ <;>
      · intro he
        simp only [completedItem, failedItem] at he
        exact h (nat_repr_injective he)

/-- Witness for C9 amended at clock values 1 and 2. -/
theorem C9_ids_distinct_for_distinct_times_witness :
    ((completedItem "a.pdf" "a.docx" 1).id ≠ (completedItem "b.pdf" "b.docx" 2).id ∧
     (failedItem none "x" 1).id ≠ (failedItem none "y" 2).id ∧
     (completedItem "a.pdf" "a.docx" 1).id ≠ (failedItem none "y" 2).id) :=
  C9_ids_distinct_for_distinct_times "a.pdf" "a.docx" "b.pdf" "b.docx"
    none none "x" "y" 1 2 (by decide)
